import Mathlib

/-!
Shallow embedding of the star-schema ETL pipeline in
`src/services/etl.py` of the TMDB-Top-5000-Movies backend.

Modelling conventions:
* A Python value that may be `None` (a `dict.get` miss, a missing CSV
  cell before `fillna`) is an `Option`.
* A nested "nearly-JSON" text column is modelled as
  `Option (List Entry)`: `none` means `json.loads` (or iterating the
  parsed value) raises, i.e. the row's embedded list fails to parse.
  An entry's fields are the `dict.get` results, hence `Option`s.
* Calendar dates are day numbers (`Nat`) counted from 1900-01-01,
  which is a Monday, so `d % 7` is exactly pandas' `dayofweek`
  (Monday = 0, ..., Saturday = 5, Sunday = 6).
* Python floats (`popularity`, `vote_average`) are modelled as `Rat`;
  no claim depends on float rounding, only on the invalid-to-zero
  defaulting.
* A Python `dict` built by repeated assignment is modelled as an
  association list built by prepending, looked up with `find?`
  (so the last assignment wins, as in Python).
-/

namespace TMDB

/-- Python truthiness of an optional integer: `None` and `0` are falsy. -/
def truthyInt : Option Int → Bool
  | none => false
  | some n => n != 0

/-- Python truthiness of an optional string: `None` and `""` are falsy. -/
def truthyStr : Option String → Bool
  | none => false
  | some s => s != ""

/-- One element of a parsed `genres` list: `{id, name}`. -/
structure GenreEntry where
  id : Option Int
  name : Option String
deriving DecidableEq, Repr

/-- One element of a parsed `crew` list: `{id, name, job, profile_path}`. -/
structure CrewEntry where
  id : Option Int
  name : Option String
  job : Option String
  profile_path : Option String
deriving DecidableEq, Repr

/-- One element of a parsed `production_companies` list. -/
structure CompanyEntry where
  id : Option Int
  name : Option String
  origin_country : Option String
deriving DecidableEq, Repr

/-- One element of a parsed `spoken_languages` list. -/
structure LangEntry where
  iso_639_1 : Option String
  name : Option String
deriving DecidableEq, Repr

/-- One element of a parsed `production_countries` list. -/
structure CountryEntry where
  iso_3166_1 : Option String
  name : Option String
deriving DecidableEq, Repr

/-- A raw movie row as read from the bronze CSV, before `clean_movies`.
`release_date` is the result `pd.to_datetime(..., errors='coerce')`
would produce (`none` = NaT); numeric fields are `none` when
`pd.to_numeric(..., errors='coerce')` yields NaN; text fields are
`none` when the CSV cell is missing. -/
structure RawMovieRow where
  id : Int
  title : String
  status : String
  release_date : Option Nat
  popularity : Option Rat
  vote_average : Option Rat
  vote_count : Option Int
  budget : Option Int
  revenue : Option Int
  runtime : Option Int
  overview : Option String
  tagline : Option String
  original_language : Option String
  genres : Option (List GenreEntry)
  production_companies : Option (List CompanyEntry)
  production_countries : Option (List CountryEntry)
  spoken_languages : Option (List LangEntry)
deriving DecidableEq, Repr

/-- A cleaned movie row, after `clean_movies`: numerics defaulted to a
type-appropriate zero, `overview`/`tagline` defaulted to the empty
string, `original_language` defaulted to "en"; `release_date` may
still be NaT (`none`). -/
structure MovieRow where
  id : Int
  title : String
  status : String
  release_date : Option Nat
  popularity : Rat
  vote_average : Rat
  vote_count : Int
  budget : Int
  revenue : Int
  runtime : Int
  overview : String
  tagline : String
  original_language : String
  genres : Option (List GenreEntry)
  production_companies : Option (List CompanyEntry)
  production_countries : Option (List CountryEntry)
  spoken_languages : Option (List LangEntry)
deriving DecidableEq, Repr

/-- A raw/cleaned credit row: natural movie id plus the nested crew list. -/
structure CreditRow where
  movie_id : Int
  crew : Option (List CrewEntry)
deriving DecidableEq, Repr

/-- `df.drop_duplicates(subset=[key])` with the default `keep='first'`:
keep a row iff its key has not appeared in an earlier row. -/
def dropDupGo (key : α → β) [DecidableEq β] (seen : List β) : List α → List α
  | [] => []
  | x :: xs =>
    if key x ∈ seen then dropDupGo key seen xs
    else x :: dropDupGo key (key x :: seen) xs

/-- Entry point of the first-occurrence deduplication. -/
def dropDuplicatesBy (key : α → β) [DecidableEq β] (l : List α) : List α :=
  dropDupGo key [] l

/-- First-occurrence deduplication of a flat list of keys (used in
statements to describe first-seen orders). -/
def dedupKeys [DecidableEq β] (l : List β) : List β :=
  dropDuplicatesBy id l

/-- Field coercions of `clean_movies` (etl.py lines 66-76): numeric
columns already coerced with errors='coerce' are defaulted to zero,
`overview`/`tagline` to `''`, `original_language` to `'en'`. -/
def coerceMovieRow (r : RawMovieRow) : MovieRow :=
  { id := r.id
    title := r.title
    status := r.status
    release_date := r.release_date
    popularity := r.popularity.getD 0
    vote_average := r.vote_average.getD 0
    vote_count := r.vote_count.getD 0
    budget := r.budget.getD 0
    revenue := r.revenue.getD 0
    runtime := r.runtime.getD 0
    overview := r.overview.getD ""
    tagline := r.tagline.getD ""
    original_language := r.original_language.getD "en"
    genres := r.genres
    production_companies := r.production_companies
    production_countries := r.production_countries
    spoken_languages := r.spoken_languages }

/-- `ETLPipeline.clean_movies`: drop duplicate natural ids (first kept),
then coerce field types; no row is dropped for any other reason. -/
def cleanMovies (df : List RawMovieRow) : List MovieRow :=
  (dropDuplicatesBy (·.id) df).map coerceMovieRow

/-- `ETLPipeline.clean_credits`: drop duplicate movie ids (first kept). -/
def cleanCredits (df : List CreditRow) : List CreditRow :=
  dropDuplicatesBy (·.movie_id) df

/-- A `dim_genre` output row: etl.py keeps the NATURAL genre id as the
key column (no positional id column is inserted for this table). -/
structure DimGenreRow where
  id : Int
  name : String
deriving DecidableEq, Repr

/-- A `dim_director` output row: keyed by the natural person id. -/
structure DimDirectorRow where
  id : Int
  name : String
  profile_path : Option String
deriving DecidableEq, Repr

/-- A `dim_production_company` output row: keyed by the natural company id. -/
structure DimCompanyRow where
  id : Int
  name : String
  origin_country : Option String
deriving DecidableEq, Repr

/-- A `dim_language` output row: a positional id column is inserted. -/
structure DimLanguageRow where
  id : Int
  iso_639_1 : String
  language_name : String
deriving DecidableEq, Repr

/-- A `dim_country` output row: a positional id column is inserted. -/
structure DimCountryRow where
  id : Int
  iso_3166_1 : String
  country_name : String
deriving DecidableEq, Repr

/-- A `dim_movie` output row (etl.py lines 141-157). -/
structure DimMovieRow where
  id : Int
  original_id : Int
  title : String
  original_language : String
  overview : String
  runtime : Int
  tagline : String
  status : String
deriving DecidableEq, Repr

/-- All five embedded-entity dimension builders share one loop shape:
scan entries, extract a key (`none` when the Python `if key and ...`
guard rejects the entry), and emit one row per first-seen key.
This is the inner per-entry loop; `seen` is the Python `*_seen` set. -/
def scanEntriesGo (keyOf : ε → Option κ) (emit : ε → κ → ρ) [DecidableEq κ]
    (seen : List κ) : List ε → List ρ × List κ
  | [] => ([], seen)
  | x :: xs =>
    match keyOf x with
    | none => scanEntriesGo keyOf emit seen xs
    | some k =>
      if k ∈ seen then scanEntriesGo keyOf emit seen xs
      else
        let p := scanEntriesGo keyOf emit (k :: seen) xs
        (emit x k :: p.1, p.2)

/-- The outer per-source-row loop shared by the genre / director /
company / country builders: a row whose embedded list fails to parse
(`colOf r = none`) is skipped (the Python handlers log or ignore and
`continue`), contributing zero entities. -/
def scanRowsGo (colOf : σ → Option (List ε)) (keyOf : ε → Option κ)
    (emit : ε → κ → ρ) [DecidableEq κ] (seen : List κ) : List σ → List ρ
  | [] => []
  | r :: rs =>
    match colOf r with
    | none => scanRowsGo colOf keyOf emit seen rs
    | some xs =>
      let p := scanEntriesGo keyOf emit seen xs
      p.1 ++ scanRowsGo colOf keyOf emit p.2 rs

/-- Key extraction for `build_dim_genre`: the Python guard is
`if genre_id and genre_id not in genre_ids_seen` — a missing or zero
id is falsy and never emitted. -/
def genreKey (g : GenreEntry) : Option Int :=
  g.id.bind (fun n => if n = 0 then none else some n)

/-- `ETLPipeline.build_dim_genre` (etl.py lines 159-189). -/
def buildDimGenre (movies : List MovieRow) : List DimGenreRow :=
  scanRowsGo (·.genres) genreKey
    (fun g gid => { id := gid, name := g.name.getD "" }) [] movies

/-- Key extraction for `build_dim_director`: only crew entries whose
job is exactly "Director", with a truthy id. -/
def directorKey (p : CrewEntry) : Option Int :=
  if p.job = some "Director" then
    p.id.bind (fun n => if n = 0 then none else some n)
  else none

/-- `ETLPipeline.build_dim_director` (etl.py lines 191-222). -/
def buildDimDirector (credits : List CreditRow) : List DimDirectorRow :=
  scanRowsGo (·.crew) directorKey
    (fun p did => { id := did, name := p.name.getD "", profile_path := p.profile_path })
    [] credits

/-- Key extraction for `build_dim_production_company`. -/
def companyKey (c : CompanyEntry) : Option Int :=
  c.id.bind (fun n => if n = 0 then none else some n)

/-- `ETLPipeline.build_dim_production_company` (etl.py lines 224-254). -/
def buildDimProductionCompany (movies : List MovieRow) : List DimCompanyRow :=
  scanRowsGo (·.production_companies) companyKey
    (fun c cid => { id := cid, name := c.name.getD "", origin_country := c.origin_country })
    [] movies

/-- Key extraction for `build_dim_country`: a missing or empty ISO
code is falsy and never emitted. -/
def countryKey (c : CountryEntry) : Option String :=
  c.iso_3166_1.bind (fun s => if s = "" then none else some s)

/-- `ETLPipeline.build_dim_country` (etl.py lines 289-320): first-seen
distinct ISO codes, then a positional id column 1..N is inserted. -/
def buildDimCountry (movies : List MovieRow) : List DimCountryRow :=
  (scanRowsGo (·.production_countries) countryKey
      (fun c iso => (iso, c.name.getD "")) [] movies).mapIdx
    (fun i p => { id := (i : Int) + 1, iso_3166_1 := p.1, country_name := p.2 })

/-- Key extraction for `build_dim_language`. -/
def langKey (l : LangEntry) : Option String :=
  l.iso_639_1.bind (fun s => if s = "" then none else some s)

/-- The per-row loop of `build_dim_language` (etl.py lines 263-280).
Unlike every other builder, its `except` handler reads a name `e`
that is never bound (`except Exception :` with no `as e`), so a row
whose embedded list fails to parse raises `NameError` from inside the
handler and the whole builder aborts; this is modelled as `.error ()`. -/
def langRowsGo (seen : List String) : List MovieRow → Except Unit (List (String × String))
  | [] => .ok []
  | r :: rs =>
    match r.spoken_languages with
    | none => .error ()
    | some xs =>
      let p := scanEntriesGo langKey (fun l iso => (iso, l.name.getD "")) seen xs
      match langRowsGo p.2 rs with
      | .ok rest => .ok (p.1 ++ rest)
      | .error e => .error e

/-- `ETLPipeline.build_dim_language` (etl.py lines 256-287): first-seen
distinct ISO codes, positional id column 1..N inserted — when no row
aborts the builder. -/
def buildDimLanguage (movies : List MovieRow) : Except Unit (List DimLanguageRow) :=
  (langRowsGo [] movies).map
    (fun l => l.mapIdx
      (fun i p => { id := (i : Int) + 1, iso_639_1 := p.1, language_name := p.2 }))

/-- `ETLPipeline.build_dim_movie` (etl.py lines 141-157): one row per
cleaned movie row in order, positional id column 1..N inserted, the
natural id kept as `original_id`. -/
def buildDimMovie (movies : List MovieRow) : List DimMovieRow :=
  movies.mapIdx (fun i r =>
    { id := (i : Int) + 1
      original_id := r.id
      title := r.title
      original_language := r.original_language
      overview := r.overview
      runtime := r.runtime
      tagline := r.tagline
      status := r.status })

/-- A `dim_date` output row. The source also derives year, month,
month name, day, day-of-week name, quarter and ISO week — all pure
functions of `date` that no property below inspects; the fields kept
here are the ones the properties are about. -/
structure DimDateRow where
  id : Int
  date : Nat
  day_of_week : Nat
  is_weekend : Bool
deriving DecidableEq, Repr

/-- pandas `dayofweek` on our day numbers: day 0 = 1900-01-01 is a
Monday and pandas numbers Monday = 0, so the weekday is `d % 7`. -/
def dayOfWeek (d : Nat) : Nat := d % 7

/-- pandas dayofweek index of Saturday. -/
def saturdayIdx : Nat := 5

/-- pandas dayofweek index of Sunday. -/
def sundayIdx : Nat := 6

/-- Day number of the fallback start `Timestamp('1900-01-01')`. -/
def d19000101 : Nat := 0

/-- Day number of the fallback end `Timestamp('2026-01-25')`:
46021 days from 1900-01-01 to 2026-01-01 (126 years, 31 of them leap)
plus 24. -/
def d20260125 : Nat := 46045

/-- The release dates pandas' min/max actually aggregate (NaT skipped). -/
def validDates (movies : List MovieRow) : List Nat :=
  movies.filterMap (·.release_date)

/-- `ETLPipeline.build_dim_date` (etl.py lines 109-139): `min`/`max`
over the release dates (NaT when no valid date exists, replaced by the
fixed fallback bounds), then one row per calendar day of the inclusive
range, with a positional id column 1..N. -/
def buildDimDate (movies : List MovieRow) : List DimDateRow :=
  let lo := ((validDates movies).min?).getD d19000101
  let hi := ((validDates movies).max?).getD d20260125
  (List.range (hi + 1 - lo)).map (fun (i : Nat) =>
    { id := (i : Int) + 1
      date := lo + i
      day_of_week := dayOfWeek (lo + i)
      is_weekend := dayOfWeek (lo + i) == saturdayIdx || dayOfWeek (lo + i) == sundayIdx })

/-- A `bridge_movie_genre` row as appended by the source: `movie_id`
is a `dict.get` result and so may be `None`; `genre_id` is the natural
genre id (which is also DimGenre's key column). -/
structure BridgeRow where
  movie_id : Option Int
  genre_id : Int
deriving DecidableEq, Repr

/-- Lookup in a Python dict modelled as a prepend-built association
list: `find?` hits the most recently assigned binding first, so the
last assignment wins, as in Python. -/
def dictGet [DecidableEq κ] (d : List (κ × ν)) (k : κ) : Option ν :=
  (d.find? (fun p => p.1 == k)).map (·.2)

/-- Build such a dict by iterating rows in order; a row binds its key
only when `valOf` succeeds (the Python loops assign inside an `if`). -/
def buildLookupGo (keyOf : α → κ) (valOf : α → Option ν)
    (d : List (κ × ν)) : List α → List (κ × ν)
  | [] => d
  | r :: rs =>
    buildLookupGo keyOf valOf
      (match valOf r with
       | some v => (keyOf r, v) :: d
       | none => d) rs

/-- Entry point of the dict construction. -/
def buildLookup (keyOf : α → κ) (valOf : α → Option ν) (rows : List α) :
    List (κ × ν) :=
  buildLookupGo keyOf valOf [] rows

/-- `dict(zip(dim_movie['original_id'], dim_movie['id']))`. -/
def movieKeyDict (dimMovie : List DimMovieRow) : List (Int × Int) :=
  buildLookup (·.original_id) (fun r => some r.id) dimMovie

/-- The bridge rows one cleaned movie row contributes (etl.py lines
335-354): parse failure skips the row; each genre entry whose id is
present among DimGenre's ids yields one row; no guard rejects a
`None` movie id. -/
def bridgeRowsOf (o2n : List (Int × Int)) (genreIds : List Int)
    (row : MovieRow) : List BridgeRow :=
  match row.genres with
  | none => []
  | some gs =>
    let new_movie_id := dictGet o2n row.id
    gs.filterMap (fun g => g.id.bind (fun gid =>
      if gid ∈ genreIds then some { movie_id := new_movie_id, genre_id := gid }
      else none))

/-- `df.insert(0, 'id', range(1, len(df) + 1))`. -/
def insertIds (l : List α) : List (Int × α) :=
  l.mapIdx (fun i x => ((i : Int) + 1, x))

/-- `ETLPipeline.build_bridge_movie_genre` (etl.py lines 322-360).
The source also builds a `genre_name_to_id` dict it never reads;
it is omitted. -/
def buildBridgeMovieGenre (movies : List MovieRow) (dimMovie : List DimMovieRow)
    (dimGenre : List DimGenreRow) : List (Int × BridgeRow) :=
  insertIds
    ((movies.map (bridgeRowsOf (movieKeyDict dimMovie) (dimGenre.map (·.id)))).flatten)

/-- A `fact_movie_release` row as appended by the source (before the
positional id column is inserted). -/
structure FactRow where
  movie_info_id : Int
  release_date_id : Int
  director_id : Option Int
  language_id : Option Int
  company_id : Option Int
  country_id : Option Int
  date_id : Int
  budget : Int
  revenue : Int
  popularity : Rat
  vote_average : Rat
  runtime : Option Int
deriving DecidableEq, Repr

/-- The director scan of etl.py lines 395-400: walk the crew in order;
at each entry with job "Director", test its id against DimDirector's
ids and stop at the first hit (a miss — including a missing id —
keeps scanning). -/
def directorScan (dimIds : List Int) : List CrewEntry → Option Int
  | [] => none
  | p :: ps =>
    if p.job = some "Director" then
      match p.id with
      | some did => if did ∈ dimIds then some did else directorScan dimIds ps
      | none => directorScan dimIds ps
    else directorScan dimIds ps

/-- What `movie_to_director` records for one credit row (etl.py lines
386-402); a crew parse failure records nothing. -/
def resolveDirector (dimDirector : List DimDirectorRow) (c : CreditRow) : Option Int :=
  c.crew.bind (directorScan (dimDirector.map (·.id)))

/-- What `movie_to_language` records for one movie row (etl.py lines
404-419): only `languages[0]` is consulted; its ISO code is matched
against DimLanguage and the first matching row's id taken. -/
def resolveLanguage (dimLanguage : List DimLanguageRow) (r : MovieRow) : Option Int :=
  r.spoken_languages.bind (fun langs =>
    match langs.head? with
    | none => none
    | some l0 => l0.iso_639_1.bind (fun iso =>
        (dimLanguage.find? (fun d => d.iso_639_1 == iso)).map (·.id)))

/-- What `movie_to_company` records for one movie row (etl.py lines
421-435): only `companies[0]` is consulted; its id is kept when
present among DimProductionCompany's ids. -/
def resolveCompany (dimCompany : List DimCompanyRow) (r : MovieRow) : Option Int :=
  r.production_companies.bind (fun cs =>
    match cs.head? with
    | none => none
    | some c0 => c0.id.bind (fun cid =>
        if cid ∈ dimCompany.map (·.id) then some cid else none))

/-- What `movie_to_country` records for one movie row (etl.py lines
437-452): only `countries[0]` is consulted. -/
def resolveCountry (dimCountry : List DimCountryRow) (r : MovieRow) : Option Int :=
  r.production_countries.bind (fun cs =>
    match cs.head? with
    | none => none
    | some c0 => c0.iso_3166_1.bind (fun iso =>
        (dimCountry.find? (fun d => d.iso_3166_1 == iso)).map (·.id)))

/-- `ETLPipeline.build_fact_movie_release` (etl.py lines 362-490):
precompute the per-movie-id resolution dicts, then emit one fact row
per movie row in order, `movie_info_id` assigned positionally.
The source's `dim_movie` parameter and its `original_to_new_id` dict
are never read; the parameter is kept, unused, for the signature.
This is the per-row body of the final loop (etl.py lines 456-483):
`movie_info_id` is positional, the date lookup defaults to surrogate
key 1, and the four foreign keys come from the precomputed dicts. -/
def factRowOf (dateDict : List (Nat × Int))
    (dirDict langDict compDict countryDict : List (Int × Int))
    (i : Nat) (row : MovieRow) : FactRow :=
  let date_id : Int :=
    match row.release_date with
    | some d => (dictGet dateDict d).getD 1
    | none => 1
  { movie_info_id := (i : Int) + 1
    release_date_id := date_id
    director_id := dictGet dirDict row.id
    language_id := dictGet langDict row.id
    company_id := dictGet compDict row.id
    country_id := dictGet countryDict row.id
    date_id := date_id
    budget := row.budget
    revenue := row.revenue
    popularity := row.popularity
    vote_average := row.vote_average
    runtime := some row.runtime }

/-- The whole of `build_fact_movie_release`: build the five lookup
dicts, emit one fact row per movie row in order, insert the positional
id column. -/
def buildFactMovieRelease (movies : List MovieRow) (credits : List CreditRow)
    (_dimMovie : List DimMovieRow) (dimDate : List DimDateRow)
    (dimDirector : List DimDirectorRow) (dimLanguage : List DimLanguageRow)
    (dimCompany : List DimCompanyRow) (dimCountry : List DimCountryRow) :
    List (Int × FactRow) :=
  insertIds (movies.mapIdx (factRowOf
    (buildLookup (·.date) (fun r => some r.id) dimDate)
    (buildLookup (·.movie_id) (resolveDirector dimDirector) credits)
    (buildLookup (·.id) (resolveLanguage dimLanguage) movies)
    (buildLookup (·.id) (resolveCompany dimCompany) movies)
    (buildLookup (·.id) (resolveCountry dimCountry) movies)))

/-- The tables `load_gold_to_database` has a load block for (etl.py
lines 531-609), in source order. There is no block for the bridge
table. -/
inductive GoldTable
  | dimMovie
  | dimDate
  | dimCountry
  | dimGenre
  | dimDirector
  | dimLanguage
  | dimProductionCompany
  | factMovieRelease
deriving DecidableEq, Repr

/-- The relational store's tables. -/
structure Store where
  dim_movie : List DimMovieRow
  dim_date : List DimDateRow
  dim_country : List DimCountryRow
  dim_genre : List DimGenreRow
  dim_director : List DimDirectorRow
  dim_language : List DimLanguageRow
  dim_production_company : List DimCompanyRow
  bridge_movie_genre : List (Int × BridgeRow)
  fact_movie_release : List (Int × FactRow)
deriving DecidableEq, Repr

/-- The gold-layer snapshot files, one per table. -/
structure GoldSnapshots where
  dim_movie : List DimMovieRow
  dim_date : List DimDateRow
  dim_country : List DimCountryRow
  dim_genre : List DimGenreRow
  dim_director : List DimDirectorRow
  dim_language : List DimLanguageRow
  dim_production_company : List DimCompanyRow
  bridge_movie_genre : List (Int × BridgeRow)
  fact_movie_release : List (Int × FactRow)
deriving DecidableEq, Repr

/-- `ETLPipeline.load_gold_to_database` (etl.py lines 514-609).
The guard counts rows of `DimMovie` — `select(func.count(DimMovie.id))`
— and skips the whole load when positive. Otherwise each table is
loaded in its own `try/except` with its own commit; `ok t` says
whether table `t`'s read-and-insert block succeeds, so one table's
failure leaves the others' outcomes untouched. No block reads
`bridge_movie_genre.parquet`: the bridge table is never loaded.
The oracle leaves each block's outcome free — an over-approximation
of the real failure modes, sound for theorems quantified over `ok`;
a concrete instantiation must pick outcomes consistent with the
store's key constraints (an insert whose snapshot id collides with a
primary key already in the table raises IntegrityError and its block
fails). -/
def loadGoldToDatabase (ok : GoldTable → Bool) (snap : GoldSnapshots)
    (st : Store) : Store :=
  if st.dim_movie.length > 0 then st
  else
    { dim_movie :=
        if ok .dimMovie then st.dim_movie ++ snap.dim_movie else st.dim_movie
      dim_date :=
        if ok .dimDate then st.dim_date ++ snap.dim_date else st.dim_date
      dim_country :=
        if ok .dimCountry then st.dim_country ++ snap.dim_country else st.dim_country
      dim_genre :=
        if ok .dimGenre then st.dim_genre ++ snap.dim_genre else st.dim_genre
      dim_director :=
        if ok .dimDirector then st.dim_director ++ snap.dim_director else st.dim_director
      dim_language :=
        if ok .dimLanguage then st.dim_language ++ snap.dim_language else st.dim_language
      dim_production_company :=
        if ok .dimProductionCompany then
          st.dim_production_company ++ snap.dim_production_company
        else st.dim_production_company
      bridge_movie_genre := st.bridge_movie_genre
      fact_movie_release :=
        if ok .factMovieRelease then
          st.fact_movie_release ++ snap.fact_movie_release
        else st.fact_movie_release }

/-! ### Lemmas about the first-seen scans -/

/-- The seen-set after a list of keys has been scanned. -/
def seenAfter [DecidableEq κ] (seen : List κ) : List κ → List κ
  | [] => seen
  | k :: ks => if k ∈ seen then seenAfter seen ks else seenAfter (k :: seen) ks

/-- The accepted natural keys a list of source rows exposes, in scan
order; a row whose embedded list fails to parse contributes none. -/
def flatKeys (colOf : σ → Option (List ε)) (keyOf : ε → Option κ) :
    List σ → List κ
  | [] => []
  | r :: rs => ((colOf r).getD []).filterMap keyOf ++ flatKeys colOf keyOf rs

theorem scanEntriesGo_fst [DecidableEq κ] (keyOf : ε → Option κ)
    (emit : ε → κ → ρ) (proj : ρ → κ) (hproj : ∀ x k, proj (emit x k) = k)
    (xs : List ε) (seen : List κ) :
    ((scanEntriesGo keyOf emit seen xs).1).map proj
      = dropDupGo id seen (xs.filterMap keyOf) := by
  induction xs generalizing seen with
  | nil => rfl
  | cons x xs ih =>
    simp only [scanEntriesGo, List.filterMap_cons]
    cases hx : keyOf x with
    | none => exact ih seen
    | some k =>
      by_cases hk : k ∈ seen
      · simpa [dropDupGo, hk] using ih seen
      · simpa [dropDupGo, hk, hproj] using ih (k :: seen)

theorem scanEntriesGo_snd [DecidableEq κ] (keyOf : ε → Option κ)
    (emit : ε → κ → ρ) (xs : List ε) (seen : List κ) :
    (scanEntriesGo keyOf emit seen xs).2 = seenAfter seen (xs.filterMap keyOf) := by
  induction xs generalizing seen with
  | nil => rfl
  | cons x xs ih =>
    simp only [scanEntriesGo, List.filterMap_cons]
    cases hx : keyOf x with
    | none => exact ih seen
    | some k =>
      by_cases hk : k ∈ seen
      · simpa [seenAfter, hk] using ih seen
      · simpa [seenAfter, hk] using ih (k :: seen)

theorem dropDupGo_append [DecidableEq κ] (seen l1 l2 : List κ) :
    dropDupGo id seen (l1 ++ l2)
      = dropDupGo id seen l1 ++ dropDupGo id (seenAfter seen l1) l2 := by
  induction l1 generalizing seen with
  | nil => rfl
  | cons k l1 ih =>
    by_cases hk : k ∈ seen
    · simpa [dropDupGo, seenAfter, hk] using ih seen
    · simpa [dropDupGo, seenAfter, hk] using ih (k :: seen)

theorem scanRowsGo_map [DecidableEq κ] (colOf : σ → Option (List ε))
    (keyOf : ε → Option κ) (emit : ε → κ → ρ) (proj : ρ → κ)
    (hproj : ∀ x k, proj (emit x k) = k) (rs : List σ) (seen : List κ) :
    (scanRowsGo colOf keyOf emit seen rs).map proj
      = dropDupGo id seen (flatKeys colOf keyOf rs) := by
  induction rs generalizing seen with
  | nil => rfl
  | cons r rs ih =>
    simp only [scanRowsGo, flatKeys]
    cases hc : colOf r with
    | none => simpa using ih seen
    | some xs =>
      simp only [Option.getD_some, List.map_append, dropDupGo_append,
        scanEntriesGo_fst keyOf emit proj hproj, scanEntriesGo_snd]
      rw [ih]

theorem dropDupGo_sound [DecidableEq β] (f : α → β) (l : List α) (seen : List β)
    (x : α) (hx : x ∈ dropDupGo f seen l) :
    x ∈ l ∧ f x ∉ seen ∧ l.find? (fun y => f y == f x) = some x := by
  induction l generalizing seen with
  | nil => cases hx
  | cons y ys ih =>
    by_cases hy : f y ∈ seen
    · simp only [dropDupGo, hy, if_pos] at hx
      obtain ⟨h1, h2, h3⟩ := ih seen hx
      refine ⟨List.mem_cons_of_mem _ h1, h2, ?_⟩
      have hne : (f y == f x) = false := by
        by_cases h : f y = f x
        · exact absurd (h ▸ hy) h2
        · simpa using h
      simp [List.find?, hne, h3]
    · simp only [dropDupGo, hy, if_neg, not_false_iff, List.mem_cons] at hx
      rcases hx with hx | hx
      · subst hx
        exact ⟨List.mem_cons_self _ _, hy, by simp [List.find?]⟩
      · obtain ⟨h1, h2, h3⟩ := ih (f y :: seen) hx
        have hne : f x ≠ f y := by
          intro h
          exact h2 (h ▸ List.mem_cons_self _ _)
        refine ⟨List.mem_cons_of_mem _ h1, fun hmem => h2 (List.mem_cons_of_mem _ hmem), ?_⟩
        have : (f y == f x) = false := by simpa using fun h => hne h.symm
        simp [List.find?, this, h3]

theorem dropDupGo_nodup_strong [DecidableEq β] (f : α → β) (l : List α)
    (seen : List β) :
    ((dropDupGo f seen l).map f).Nodup ∧
      ∀ k ∈ (dropDupGo f seen l).map f, k ∉ seen := by
  induction l generalizing seen with
  | nil => exact ⟨List.nodup_nil, by simp [dropDupGo]⟩
  | cons y ys ih =>
    by_cases hy : f y ∈ seen
    · simpa [dropDupGo, hy] using ih seen
    · obtain ⟨h1, h2⟩ := ih (f y :: seen)
      simp only [dropDupGo, hy, if_neg, not_false_iff, List.map_cons]
      constructor
      · exact List.nodup_cons.mpr
          ⟨fun hmem => (h2 _ hmem) (List.mem_cons_self _ _), h1⟩
      · intro k hk
        rcases List.mem_cons.mp hk with hk | hk
        · exact hk ▸ hy
        · exact fun hmem => (h2 _ hk) (List.mem_cons_of_mem _ hmem)

theorem dropDupGo_map_key [DecidableEq β] (f : α → β) (l : List α)
    (seen : List β) :
    (dropDupGo f seen l).map f = dropDupGo id seen (l.map f) := by
  induction l generalizing seen with
  | nil => rfl
  | cons y ys ih =>
    by_cases hy : f y ∈ seen
    · simpa [dropDupGo, hy] using ih seen
    · simpa [dropDupGo, hy] using ih (f y :: seen)

theorem mem_flatKeys (colOf : σ → Option (List ε)) (keyOf : ε → Option κ)
    (rs : List σ) (k : κ) (hk : k ∈ flatKeys colOf keyOf rs) :
    ∃ r ∈ rs, ∃ x ∈ (colOf r).getD [], keyOf x = some k := by
  induction rs with
  | nil => cases hk
  | cons r rs ih =>
    rcases List.mem_append.mp hk with h | h
    · obtain ⟨x, hx, hkx⟩ := List.mem_filterMap.mp h
      exact ⟨r, List.mem_cons_self _ _, x, hx, hkx⟩
    · obtain ⟨r', hr', hx⟩ := ih h
      exact ⟨r', List.mem_cons_of_mem _ hr', hx⟩

/-! ### Lemmas about the dict model -/

theorem dictGet_buildLookupGo_not_mem [DecidableEq κ] (keyOf : α → κ)
    (valOf : α → Option ν) (rs : List α) (d : List (κ × ν)) (k : κ)
    (h : ∀ r ∈ rs, keyOf r ≠ k) :
    dictGet (buildLookupGo keyOf valOf d rs) k = dictGet d k := by
  induction rs generalizing d with
  | nil => rfl
  | cons r rs ih =>
    simp only [buildLookupGo]
    cases hv : valOf r with
    | none => exact ih _ (fun x hx => h x (List.mem_cons_of_mem _ hx))
    | some v =>
      rw [ih _ (fun x hx => h x (List.mem_cons_of_mem _ hx))]
      have hne : (keyOf r == k) = false := by
        simpa using h r (List.mem_cons_self _ _)
      simp [dictGet, List.find?, hne]

theorem dictGet_buildLookupGo_mem [DecidableEq κ] (keyOf : α → κ)
    (valOf : α → Option ν) (rs : List α) (d : List (κ × ν)) (r : α)
    (hr : r ∈ rs) (hnd : (rs.map keyOf).Nodup) :
    dictGet (buildLookupGo keyOf valOf d rs) (keyOf r)
      = ((valOf r).map some).getD (dictGet d (keyOf r)) := by
  induction rs generalizing d with
  | nil => cases hr
  | cons y ys ih =>
    have hnd' : (ys.map keyOf).Nodup := (List.nodup_cons.mp hnd).2
    have hy : keyOf y ∉ ys.map keyOf := (List.nodup_cons.mp hnd).1
    rcases List.mem_cons.mp hr with hr | hr
    · subst hr
      simp only [buildLookupGo]
      have hnot : ∀ x ∈ ys, keyOf x ≠ keyOf r := by
        intro x hx h
        exact hy (h ▸ List.mem_map_of_mem keyOf hx)
      rw [dictGet_buildLookupGo_not_mem keyOf valOf ys _ _ hnot]
      cases hv : valOf r with
      | none => rfl
      | some v => simp [dictGet, List.find?]
    · simp only [buildLookupGo]
      cases hv : valOf y with
      | none => exact ih _ hr hnd'
      | some v =>
        rw [ih _ hr hnd']
        have hne : keyOf y ≠ keyOf r := by
          intro h
          exact hy (h ▸ List.mem_map_of_mem keyOf hr)
        have : (keyOf y == keyOf r) = false := by simpa using hne
        simp [dictGet, List.find?, this]

theorem dictGet_buildLookup [DecidableEq κ] (keyOf : α → κ)
    (valOf : α → Option ν) (rs : List α) (r : α) (hr : r ∈ rs)
    (hnd : (rs.map keyOf).Nodup) :
    dictGet (buildLookup keyOf valOf rs) (keyOf r) = valOf r := by
  rw [buildLookup, dictGet_buildLookupGo_mem keyOf valOf rs [] r hr hnd]
  cases valOf r <;> rfl

theorem dictGet_buildLookupGo_some [DecidableEq κ] (keyOf : α → κ)
    (valOf : α → Option ν) (rs : List α) (d : List (κ × ν)) (k : κ) (v : ν)
    (h : dictGet (buildLookupGo keyOf valOf d rs) k = some v) :
    (∃ r ∈ rs, keyOf r = k ∧ valOf r = some v) ∨ dictGet d k = some v := by
  induction rs generalizing d with
  | nil => exact Or.inr h
  | cons r rs ih =>
    simp only [buildLookupGo] at h
    cases hv : valOf r with
    | none =>
      rw [hv] at h
      rcases ih _ h with ⟨r', hr', hk, hv'⟩ | hd
      · exact Or.inl ⟨r', List.mem_cons_of_mem _ hr', hk, hv'⟩
      · exact Or.inr hd
    | some w =>
      rw [hv] at h
      rcases ih _ h with ⟨r', hr', hk, hv'⟩ | hd
      · exact Or.inl ⟨r', List.mem_cons_of_mem _ hr', hk, hv'⟩
      · by_cases hk : keyOf r = k
        · rw [hk] at hd
          simp only [dictGet, List.find?, beq_self_eq_true] at hd
          exact Or.inl ⟨r, List.mem_cons_self _ _, hk, by rw [hv]; simpa using hd⟩
        · have : (keyOf r == k) = false := by simpa using hk
          simp only [dictGet, List.find?, this] at hd
          exact Or.inr hd

theorem dictGet_buildLookupGo_isSome [DecidableEq κ] (keyOf : α → κ)
    (valOf : α → Option ν) (rs : List α) (d : List (κ × ν)) (k : κ)
    (h : (dictGet d k).isSome ∨ ∃ r ∈ rs, keyOf r = k ∧ (valOf r).isSome) :
    (dictGet (buildLookupGo keyOf valOf d rs) k).isSome := by
  induction rs generalizing d with
  | nil =>
    rcases h with h | ⟨r, hr, _⟩
    · exact h
    · cases hr
  | cons y ys ih =>
    simp only [buildLookupGo]
    cases hv : valOf y with
    | none =>
      apply ih
      rcases h with h | ⟨r, hr, hk, hs⟩
      · exact Or.inl h
      · rcases List.mem_cons.mp hr with hr | hr
        · rw [hr, hv] at hs
          cases hs
        · exact Or.inr ⟨r, hr, hk, hs⟩
    | some v =>
      apply ih
      by_cases hky : keyOf y = k
      · refine Or.inl ?_
        simp [dictGet, List.find?, hky]
      · have hne : (keyOf y == k) = false := by simpa using hky
        rcases h with h | ⟨r, hr, hk, hs⟩
        · refine Or.inl ?_
          simpa [dictGet, List.find?, hne] using h
        · rcases List.mem_cons.mp hr with hr | hr
          · exact absurd (hr ▸ hk) hky
          · exact Or.inr ⟨r, hr, hk, hs⟩

theorem dictGet_buildLookup_isSome [DecidableEq κ] (keyOf : α → κ)
    (valOf : α → Option ν) (rs : List α) (r : α) (hr : r ∈ rs)
    (hs : (valOf r).isSome) :
    (dictGet (buildLookup keyOf valOf rs) (keyOf r)).isSome :=
  dictGet_buildLookupGo_isSome keyOf valOf rs [] (keyOf r)
    (Or.inr ⟨r, hr, rfl, hs⟩)

/-! ### Lemmas about positional id insertion -/

theorem map_mapIdx_range (l : List α) (f : Nat → α → β) (g : β → γ)
    (h : Nat → γ) (hfg : ∀ i x, g (f i x) = h i) :
    (l.mapIdx f).map g = (List.range l.length).map h := by
  apply List.ext_get
  · simp [List.length_mapIdx]
  · intro n h1 h2
    have hn : n < l.length := by
      simpa [List.length_mapIdx] using h1
    rw [List.get_map, List.get_map, List.get_range, List.get_mapIdx _ _ _ hn, hfg]

theorem length_insertIds (l : List α) : (insertIds l).length = l.length := by
  simp [insertIds, List.length_mapIdx]

theorem get_insertIds (l : List α) (i : Nat) (h : i < l.length)
    (h' : i < (insertIds l).length) :
    (insertIds l).get ⟨i, h'⟩ = ((i : Int) + 1, l.get ⟨i, h⟩) := by
  simp [insertIds, List.get_mapIdx]

theorem insertIds_map_snd (l : List α) : (insertIds l).map Prod.snd = l := by
  apply List.ext_get
  · simp [insertIds, List.length_mapIdx]
  · intro n h1 h2
    simp [insertIds, List.get_map, List.get_mapIdx]

theorem map_mapIdx_proj (l : List α) (f : Nat → α → β) (g : β → γ)
    (h : α → γ) (hfg : ∀ i x, g (f i x) = h x) :
    (l.mapIdx f).map g = l.map h := by
  apply List.ext_get
  · simp [List.length_mapIdx]
  · intro n h1 h2
    have hn : n < l.length := by
      simpa [List.length_mapIdx] using h2
    rw [List.get_map, List.get_map, List.get_mapIdx _ _ _ hn, hfg]

theorem mem_snd_insertIds (l : List α) (p : Int × α) (hp : p ∈ insertIds l) :
    p.2 ∈ l := by
  have := List.mem_map_of_mem Prod.snd hp
  rwa [insertIds_map_snd] at this

theorem dropDupGo_id_nodup [DecidableEq β] (l : List β) (seen : List β) :
    (dropDupGo id seen l).Nodup := by
  have h := (dropDupGo_nodup_strong id l seen).1
  simpa using h

/-- Density of a surrogate-key column: the ids are exactly 1..N. -/
def denseIds (ids : List Int) : Prop :=
  ids = (List.range ids.length).map (fun i : Nat => (i : Int) + 1)

theorem denseIds_range_map (n : Nat) :
    denseIds ((List.range n).map (fun i : Nat => (i : Int) + 1)) := by
  unfold denseIds
  rw [List.length_map, List.length_range]

instance (ids : List Int) : Decidable (denseIds ids) := by
  unfold denseIds
  infer_instance

/-- The per-row scan of `build_dim_language` agrees with the common
scan whenever it does not abort. -/
theorem langRowsGo_ok (rs : List MovieRow) (seen : List String)
    (l : List (String × String)) (h : langRowsGo seen rs = .ok l) :
    l.map Prod.fst = dropDupGo id seen (flatKeys (·.spoken_languages) langKey rs) := by
  induction rs generalizing seen l with
  | nil =>
    simp only [langRowsGo] at h
    cases h
    rfl
  | cons r rs ih =>
    simp only [langRowsGo] at h
    cases hc : r.spoken_languages with
    | none =>
      simp only [hc] at h
      exact Except.noConfusion h
    | some xs =>
      simp only [hc] at h
      cases hrec : langRowsGo (scanEntriesGo langKey
          (fun l iso => (iso, l.name.getD "")) seen xs).2 rs with
      | error e =>
        simp only [hrec] at h
        exact Except.noConfusion h
      | ok rest =>
        simp only [hrec] at h
        cases h
        simp only [flatKeys, hc, Option.getD_some, List.map_append,
          dropDupGo_append,
          scanEntriesGo_fst langKey (fun l iso => (iso, l.name.getD ""))
            Prod.fst (fun _ _ => rfl),
          scanEntriesGo_snd langKey (fun l iso => (iso, l.name.getD ""))]
        rw [ih _ _ hrec, scanEntriesGo_snd]

/-- A key accepted by the truthiness filter is never the falsy value. -/
theorem filteredKey_ne [DecidableEq γ] {o : Option γ} {z k : γ}
    (h : o.bind (fun n => if n = z then none else some n) = some k) : k ≠ z := by
  cases o with
  | none => exact Option.noConfusion h
  | some n =>
    simp only [Option.bind] at h
    by_cases hn : n = z
    · rw [if_pos hn] at h
      exact Option.noConfusion h
    · rw [if_neg hn] at h
      injection h with h
      subst h
      exact hn

theorem genreKey_ne_zero (g : GenreEntry) (k : Int) (h : genreKey g = some k) :
    k ≠ 0 := filteredKey_ne h

theorem companyKey_ne_zero (c : CompanyEntry) (k : Int)
    (h : companyKey c = some k) : k ≠ 0 := filteredKey_ne h

theorem directorKey_ne_zero (p : CrewEntry) (k : Int)
    (h : directorKey p = some k) : k ≠ 0 := by
  unfold directorKey at h
  by_cases hj : p.job = some "Director"
  · rw [if_pos hj] at h
    exact filteredKey_ne h
  · rw [if_neg hj] at h
    cases h

theorem langKey_ne_empty (l : LangEntry) (k : String)
    (h : langKey l = some k) : k ≠ "" := filteredKey_ne h

theorem countryKey_ne_empty (c : CountryEntry) (k : String)
    (h : countryKey c = some k) : k ≠ "" := filteredKey_ne h

/-- The number of genre entries of one cleaned row whose natural id
resolves against a list of DimGenre ids. -/
def genreHits (genreIds : List Int) (row : MovieRow) : Nat :=
  ((row.genres.getD []).filterMap GenreEntry.id).countP (fun gid => decide (gid ∈ genreIds))

theorem filterMap_resolve_length (gs : List GenreEntry) (genreIds : List Int)
    (mk : Int → BridgeRow) :
    (gs.filterMap (fun g => g.id.bind
        (fun gid => if gid ∈ genreIds then some (mk gid) else none))).length
      = (gs.filterMap GenreEntry.id).countP (fun gid => decide (gid ∈ genreIds)) := by
  induction gs with
  | nil => rfl
  | cons g gs ih =>
    cases hid : g.id with
    | none => simp [List.filterMap_cons, hid, ih]
    | some gid =>
      by_cases hmem : gid ∈ genreIds
      · simp [List.filterMap_cons, hid, hmem, List.countP_cons, ih]
      · simp [List.filterMap_cons, hid, hmem, List.countP_cons, ih]

theorem bridgeRowsOf_length (o2n : List (Int × Int)) (genreIds : List Int)
    (row : MovieRow) :
    (bridgeRowsOf o2n genreIds row).length = genreHits genreIds row := by
  unfold bridgeRowsOf genreHits
  cases hg : row.genres with
  | none => rfl
  | some gs =>
    simp only [Option.getD_some]
    exact filterMap_resolve_length gs genreIds
      (fun gid => { movie_id := dictGet o2n row.id, genre_id := gid })

theorem mem_bridgeRowsOf (o2n : List (Int × Int)) (genreIds : List Int)
    (row : MovieRow) (b : BridgeRow) (hb : b ∈ bridgeRowsOf o2n genreIds row) :
    b.movie_id = dictGet o2n row.id ∧ b.genre_id ∈ genreIds := by
  unfold bridgeRowsOf at hb
  cases hg : row.genres with
  | none => rw [hg] at hb; cases hb
  | some gs =>
    rw [hg] at hb
    obtain ⟨g, _, hgb⟩ := List.mem_filterMap.mp hb
    cases hid : g.id with
    | none => rw [hid] at hgb; cases hgb
    | some gid =>
      rw [hid] at hgb
      by_cases hmem : gid ∈ genreIds
      · simp only [Option.bind] at hgb
        rw [if_pos hmem] at hgb
        cases hgb
        exact ⟨rfl, hmem⟩
      · simp only [Option.bind] at hgb
        rw [if_neg hmem] at hgb
        exact Option.noConfusion hgb

/-! ### Concrete inputs used by witnesses and counterexamples -/

/-- A well-formed cleaned movie row used as a template. -/
def baseRow : MovieRow :=
  { id := 100
    title := "A"
    status := "Released"
    release_date := some 0
    popularity := 0
    vote_average := 0
    vote_count := 0
    budget := 0
    revenue := 0
    runtime := 0
    overview := ""
    tagline := ""
    original_language := "en"
    genres := some []
    production_companies := some []
    production_countries := some []
    spoken_languages := some [] }

/-- A fact row used to populate demo stores and snapshots. -/
def factRowDemo : FactRow :=
  { movie_info_id := 1
    release_date_id := 1
    director_id := none
    language_id := none
    company_id := none
    country_id := none
    date_id := 1
    budget := 0
    revenue := 0
    popularity := 0
    vote_average := 0
    runtime := some 0 }

/-- A movie-dimension row used to populate demo snapshots. -/
def dimMovieRowDemo : DimMovieRow :=
  { id := 1
    original_id := 100
    title := "A"
    original_language := "en"
    overview := ""
    runtime := 0
    tagline := ""
    status := "Released" }

/-- A store with every table empty. -/
def emptyStore : Store :=
  { dim_movie := []
    dim_date := []
    dim_country := []
    dim_genre := []
    dim_director := []
    dim_language := []
    dim_production_company := []
    bridge_movie_genre := []
    fact_movie_release := [] }

/-- Snapshots with every file empty. -/
def emptySnap : GoldSnapshots :=
  { dim_movie := []
    dim_date := []
    dim_country := []
    dim_genre := []
    dim_director := []
    dim_language := []
    dim_production_company := []
    bridge_movie_genre := []
    fact_movie_release := [] }

/-- A store whose fact table has one row but whose movie dimension is
empty (e.g. the DimMovie insert batch failed while the fact batch
succeeded on an earlier load). -/
def storeFactOnly : Store :=
  { emptyStore with fact_movie_release := [(1, factRowDemo)] }

/-- Snapshots holding one movie row and one fact row. -/
def snapDemo : GoldSnapshots :=
  { emptySnap with
    dim_movie := [dimMovieRowDemo]
    fact_movie_release := [(1, factRowDemo)] }

/-- Snapshots holding one bridge row. -/
def snapBridge : GoldSnapshots :=
  { emptySnap with
    bridge_movie_genre := [(1, { movie_id := some 1, genre_id := 28 })] }

/-- The oracle under which every table's load block succeeds
(realizable when every target table is empty, as after a reset). -/
def okAll : GoldTable → Bool := fun _ => true

/-- The realizable outcome oracle at `storeFactOnly` with `snapDemo`:
every block's insert lands in an empty table and succeeds, except the
fact block, whose insert of snapshot id 1 collides with the primary
key 1 already in the fact table; the commit raises IntegrityError,
caught by that block's handler, so the block fails. -/
def okButFact : GoldTable → Bool
  | .factMovieRelease => false
  | _ => true

/-! ### Claims -/

/-- Claim C4, counterexample: the loader's guard does not test the fact
table. In `storeFactOnly` the fact table already has one row, yet the
entire load is NOT skipped: the source's guard counts `DimMovie` rows
(`select(func.count(DimMovie.id))`), which is zero here, so the loader
proceeds and the movie dimension gains its snapshot row (0 to 1 rows).
The fact block itself fails on the primary-key collision (its
IntegrityError is caught), so the fact count stays 1 — every block's
outcome here matches a hand-trace of the source. -/
theorem claim4_counterexample :
    storeFactOnly.fact_movie_release.length = 1 ∧
    storeFactOnly.dim_movie.length = 0 ∧
    (loadGoldToDatabase okButFact snapDemo storeFactOnly).dim_movie.length = 1 ∧
    (loadGoldToDatabase okButFact snapDemo storeFactOnly).fact_movie_release.length = 1 := by
  refine ⟨rfl, rfl, rfl, rfl⟩

/-- Claim C4, amended: the loader checks whether the MOVIE DIMENSION
table already has rows and, if so, skips the entire load; invoking the
loader twice leaves the store — in particular the fact-row count —
unchanged after the second call, provided the movie dimension starts
nonempty or its load block succeeds on a nonempty snapshot. -/
theorem claim4_amended (ok : GoldTable → Bool) (snap : GoldSnapshots) (st : Store)
    (h : 0 < st.dim_movie.length ∨ (ok .dimMovie = true ∧ snap.dim_movie ≠ [])) :
    (0 < st.dim_movie.length → loadGoldToDatabase ok snap st = st) ∧
    loadGoldToDatabase ok snap (loadGoldToDatabase ok snap st)
      = loadGoldToDatabase ok snap st := by
  constructor
  · intro h0
    simp [loadGoldToDatabase, h0]
  · by_cases h0 : 0 < st.dim_movie.length
    · simp [loadGoldToDatabase, h0]
    · rcases h with h | ⟨hok, hsnap⟩
      · exact absurd h h0
      · have hlen : 0 < (loadGoldToDatabase ok snap st).dim_movie.length := by
          simp only [loadGoldToDatabase, if_neg h0]
          simp only [hok, if_pos]
          rw [List.length_append]
          have : 0 < snap.dim_movie.length := List.length_pos.mpr hsnap
          omega
        conv_lhs => rw [loadGoldToDatabase]
        rw [if_pos hlen]

/-- Claim C4 amended, witness: loading the demo snapshot into an empty
store once populates it; the second invocation changes nothing. -/
theorem claim4_amended_witness :
    (0 < emptyStore.dim_movie.length →
       loadGoldToDatabase okAll snapDemo emptyStore = emptyStore) ∧
    loadGoldToDatabase okAll snapDemo (loadGoldToDatabase okAll snapDemo emptyStore)
      = loadGoldToDatabase okAll snapDemo emptyStore :=
  claim4_amended okAll snapDemo emptyStore (Or.inr ⟨rfl, by decide⟩)

/-- Claim C5, counterexample: the loader has no load block for the
bridge table. Loading a snapshot whose bridge file holds one row into
an empty store leaves the store's bridge table empty, refuting the
claim that every table — the bridge included — is loaded. -/
theorem claim5_counterexample :
    snapBridge.bridge_movie_genre ≠ [] ∧
    (loadGoldToDatabase okAll snapBridge emptyStore).bridge_movie_genre = [] := by
  constructor
  · decide
  · rfl

/-- Claim C5, amended: when the guard passes, each of the seven
dimension tables and the fact table is loaded from its snapshot in a
block of its own — each table's outcome depends only on its own
block's success, so one table's failure does not prevent attempting
the next — but the bridge table has no load block and is never
loaded. -/
theorem claim5_amended (ok : GoldTable → Bool) (snap : GoldSnapshots) (st : Store)
    (h : st.dim_movie = []) :
    (loadGoldToDatabase ok snap st).dim_movie
        = (if ok .dimMovie then st.dim_movie ++ snap.dim_movie else st.dim_movie) ∧
    (loadGoldToDatabase ok snap st).dim_date
        = (if ok .dimDate then st.dim_date ++ snap.dim_date else st.dim_date) ∧
    (loadGoldToDatabase ok snap st).dim_country
        = (if ok .dimCountry then st.dim_country ++ snap.dim_country else st.dim_country) ∧
    (loadGoldToDatabase ok snap st).dim_genre
        = (if ok .dimGenre then st.dim_genre ++ snap.dim_genre else st.dim_genre) ∧
    (loadGoldToDatabase ok snap st).dim_director
        = (if ok .dimDirector then st.dim_director ++ snap.dim_director else st.dim_director) ∧
    (loadGoldToDatabase ok snap st).dim_language
        = (if ok .dimLanguage then st.dim_language ++ snap.dim_language else st.dim_language) ∧
    (loadGoldToDatabase ok snap st).dim_production_company
        = (if ok .dimProductionCompany then
             st.dim_production_company ++ snap.dim_production_company
           else st.dim_production_company) ∧
    (loadGoldToDatabase ok snap st).fact_movie_release
        = (if ok .factMovieRelease then
             st.fact_movie_release ++ snap.fact_movie_release
           else st.fact_movie_release) ∧
    (loadGoldToDatabase ok snap st).bridge_movie_genre = st.bridge_movie_genre := by
  have h0 : ¬ 0 < st.dim_movie.length := by
    simp [h]
  simp only [loadGoldToDatabase, if_neg h0]
  repeat' apply And.intro
  all_goals first
    | rfl
    | trivial

/-- Claim C5 amended, witness at the demo snapshot and empty store. -/
theorem claim5_amended_witness :
    (loadGoldToDatabase okAll snapDemo emptyStore).dim_movie
        = (if okAll .dimMovie then emptyStore.dim_movie ++ snapDemo.dim_movie
           else emptyStore.dim_movie) ∧
    (loadGoldToDatabase okAll snapDemo emptyStore).dim_date
        = (if okAll .dimDate then emptyStore.dim_date ++ snapDemo.dim_date
           else emptyStore.dim_date) ∧
    (loadGoldToDatabase okAll snapDemo emptyStore).dim_country
        = (if okAll .dimCountry then emptyStore.dim_country ++ snapDemo.dim_country
           else emptyStore.dim_country) ∧
    (loadGoldToDatabase okAll snapDemo emptyStore).dim_genre
        = (if okAll .dimGenre then emptyStore.dim_genre ++ snapDemo.dim_genre
           else emptyStore.dim_genre) ∧
    (loadGoldToDatabase okAll snapDemo emptyStore).dim_director
        = (if okAll .dimDirector then emptyStore.dim_director ++ snapDemo.dim_director
           else emptyStore.dim_director) ∧
    (loadGoldToDatabase okAll snapDemo emptyStore).dim_language
        = (if okAll .dimLanguage then emptyStore.dim_language ++ snapDemo.dim_language
           else emptyStore.dim_language) ∧
    (loadGoldToDatabase okAll snapDemo emptyStore).dim_production_company
        = (if okAll .dimProductionCompany then
             emptyStore.dim_production_company ++ snapDemo.dim_production_company
           else emptyStore.dim_production_company) ∧
    (loadGoldToDatabase okAll snapDemo emptyStore).fact_movie_release
        = (if okAll .factMovieRelease then
             emptyStore.fact_movie_release ++ snapDemo.fact_movie_release
           else emptyStore.fact_movie_release) ∧
    (loadGoldToDatabase okAll snapDemo emptyStore).bridge_movie_genre
        = emptyStore.bridge_movie_genre :=
  claim5_amended okAll snapDemo emptyStore rfl

/-- A cleaned movie row every one of whose embedded list columns fails
to parse, together with a credit row whose crew fails to parse. -/
def rowAllBadParse : MovieRow :=
  { baseRow with
    genres := none
    production_companies := none
    production_countries := none
    spoken_languages := none }

/-- A credit row whose crew column fails to parse. -/
def creditBadParse : CreditRow := { movie_id := 100, crew := none }

/-- Claim C6: the genre, director, company and country builders do skip
a row whose embedded list fails to parse, contributing zero entities —
but `build_dim_language` does not: its `except` handler references the
unbound name `e`, so the same per-row parse failure raises `NameError`
and aborts the builder. The claim is right about the intended and
otherwise-uniform behavior; the language builder's handler is the
slip. -/
theorem claim6_language_handler_bug :
    buildDimGenre [rowAllBadParse] = [] ∧
    buildDimDirector [creditBadParse] = [] ∧
    buildDimProductionCompany [rowAllBadParse] = [] ∧
    buildDimCountry [rowAllBadParse] = [] ∧
    buildDimLanguage [rowAllBadParse] = .error () := by
  exact ⟨rfl, rfl, rfl, rfl, rfl⟩

theorem buildFact_length (movies : List MovieRow) (credits : List CreditRow)
    (dM : List DimMovieRow) (dD : List DimDateRow) (dDir : List DimDirectorRow)
    (dL : List DimLanguageRow) (dC : List DimCompanyRow) (dCt : List DimCountryRow) :
    (buildFactMovieRelease movies credits dM dD dDir dL dC dCt).length
      = movies.length := by
  simp [buildFactMovieRelease, length_insertIds, List.length_mapIdx]

theorem buildFact_get (movies : List MovieRow) (credits : List CreditRow)
    (dM : List DimMovieRow) (dD : List DimDateRow) (dDir : List DimDirectorRow)
    (dL : List DimLanguageRow) (dC : List DimCompanyRow) (dCt : List DimCountryRow)
    (i : Nat) (hi : i < movies.length)
    (hf : i < (buildFactMovieRelease movies credits dM dD dDir dL dC dCt).length) :
    (buildFactMovieRelease movies credits dM dD dDir dL dC dCt).get ⟨i, hf⟩
      = ((i : Int) + 1,
         factRowOf
           (buildLookup (·.date) (fun r => some r.id) dD)
           (buildLookup (·.movie_id) (resolveDirector dDir) credits)
           (buildLookup (·.id) (resolveLanguage dL) movies)
           (buildLookup (·.id) (resolveCompany dC) movies)
           (buildLookup (·.id) (resolveCountry dCt) movies)
           i (movies.get ⟨i, hi⟩)) := by
  have h1 : i < (movies.mapIdx (factRowOf
      (buildLookup (·.date) (fun r => some r.id) dD)
      (buildLookup (·.movie_id) (resolveDirector dDir) credits)
      (buildLookup (·.id) (resolveLanguage dL) movies)
      (buildLookup (·.id) (resolveCompany dC) movies)
      (buildLookup (·.id) (resolveCountry dCt) movies))).length := by
    rw [List.length_mapIdx]
    exact hi
  exact (get_insertIds _ i h1 hf).trans (by rw [List.get_mapIdx _ _ _ hi])

theorem buildDimMovie_length (movies : List MovieRow) :
    (buildDimMovie movies).length = movies.length := by
  simp [buildDimMovie, List.length_mapIdx]

theorem buildDimMovie_get_id (movies : List MovieRow) (i : Nat)
    (hi : i < movies.length) (hm : i < (buildDimMovie movies).length) :
    ((buildDimMovie movies).get ⟨i, hm⟩).id = (i : Int) + 1 := by
  have := List.get_mapIdx movies
    (fun i r => ({ id := (i : Int) + 1
                   original_id := r.id
                   title := r.title
                   original_language := r.original_language
                   overview := r.overview
                   runtime := r.runtime
                   tagline := r.tagline
                   status := r.status } : DimMovieRow)) i hi hm
  rw [show (buildDimMovie movies).get ⟨i, hm⟩
        = (movies.mapIdx _).get ⟨i, hm⟩ from rfl, this]

/-- Claim C2: the Fact Builder emits exactly one fact row per cleaned
movie row in the same order: the fact table and DimMovie have the same
row count, and the i-th fact row's `movie_info_id` is `i + 1` — the
surrogate key DimMovie assigns to the i-th movie. -/
theorem claim2_one_fact_per_movie (movies : List MovieRow) (credits : List CreditRow)
    (dM : List DimMovieRow) (dD : List DimDateRow) (dDir : List DimDirectorRow)
    (dL : List DimLanguageRow) (dC : List DimCompanyRow) (dCt : List DimCountryRow)
    (i : Nat) (hi : i < movies.length)
    (hf : i < (buildFactMovieRelease movies credits dM dD dDir dL dC dCt).length)
    (hm : i < (buildDimMovie movies).length) :
    (buildFactMovieRelease movies credits dM dD dDir dL dC dCt).length
      = (buildDimMovie movies).length ∧
    ((buildFactMovieRelease movies credits dM dD dDir dL dC dCt).get ⟨i, hf⟩).2.movie_info_id
      = (i : Int) + 1 ∧
    ((buildDimMovie movies).get ⟨i, hm⟩).id = (i : Int) + 1 := by
  refine ⟨?_, ?_, buildDimMovie_get_id movies i hi hm⟩
  · rw [buildFact_length, buildDimMovie_length]
  · rw [buildFact_get movies credits dM dD dDir dL dC dCt i hi hf]
    rfl

/-- Claim C2, witness at a two-row cleaned table and index 1. -/
theorem claim2_witness :
    (buildFactMovieRelease [baseRow, { baseRow with id := 101 }] [] [] [] [] [] [] []).length
      = (buildDimMovie [baseRow, { baseRow with id := 101 }]).length ∧
    ((buildFactMovieRelease [baseRow, { baseRow with id := 101 }] [] [] [] [] [] [] []).get
        ⟨1, by decide⟩).2.movie_info_id = (1 : Int) + 1 ∧
    ((buildDimMovie [baseRow, { baseRow with id := 101 }]).get ⟨1, by decide⟩).id
      = (1 : Int) + 1 :=
  claim2_one_fact_per_movie [baseRow, { baseRow with id := 101 }] [] [] [] [] [] [] []
    1 (by decide) (by decide) (by decide)

/-- Claim C8: DimDate is a contiguous date spine — exactly one row per
calendar day of the inclusive range from the minimum to the maximum
observed release date (the fixed fallback bounds when no valid date
exists), with a dense 1-based id equal to the day offset from the
minimum, and `is_weekend` true exactly on Saturdays and Sundays. -/
theorem claim8_date_spine (movies : List MovieRow) (row : DimDateRow)
    (hrow : row ∈ buildDimDate movies) :
    (buildDimDate movies).map (·.date)
        = (List.range (((validDates movies).max?).getD d20260125 + 1
              - ((validDates movies).min?).getD d19000101)).map
            (fun i : Nat => ((validDates movies).min?).getD d19000101 + i) ∧
    denseIds ((buildDimDate movies).map (·.id)) ∧
    (row.is_weekend = true ↔
      (dayOfWeek row.date = saturdayIdx ∨ dayOfWeek row.date = sundayIdx)) ∧
    row.id = (row.date : Int)
        - (((validDates movies).min?).getD d19000101 : Int) + 1 := by
  refine ⟨?_, ?_, ?_, ?_⟩
  · simp only [buildDimDate]
    rw [List.map_map]
    rfl
  · simp only [buildDimDate]
    rw [List.map_map]
    exact denseIds_range_map _
  · simp only [buildDimDate] at hrow
    obtain ⟨i, _, hfi⟩ := List.mem_map.mp hrow
    rw [← hfi]
    simp [dayOfWeek, saturdayIdx, sundayIdx]
  · simp only [buildDimDate] at hrow
    obtain ⟨i, _, hfi⟩ := List.mem_map.mp hrow
    rw [← hfi]
    push_cast
    ring

/-- Claim C8, witness: a two-movie table whose release dates are day 10
and day 12 (so the spine is days 10, 11, 12), checked at the spine's
last row — day 12 is a Saturday. -/
theorem claim8_witness :
    (buildDimDate [{ baseRow with release_date := some 10 },
                   { baseRow with id := 101, release_date := some 12 }]).map (·.date)
        = (List.range (((validDates [{ baseRow with release_date := some 10 },
              { baseRow with id := 101, release_date := some 12 }]).max?).getD d20260125 + 1
              - ((validDates [{ baseRow with release_date := some 10 },
                  { baseRow with id := 101, release_date := some 12 }]).min?).getD d19000101)).map
            (fun i : Nat =>
              ((validDates [{ baseRow with release_date := some 10 },
                  { baseRow with id := 101, release_date := some 12 }]).min?).getD d19000101 + i) ∧
    denseIds ((buildDimDate [{ baseRow with release_date := some 10 },
        { baseRow with id := 101, release_date := some 12 }]).map (·.id)) ∧
    (({ id := 3, date := 12, day_of_week := 5, is_weekend := true } : DimDateRow).is_weekend = true ↔
      (dayOfWeek ({ id := 3, date := 12, day_of_week := 5, is_weekend := true } : DimDateRow).date = saturdayIdx ∨
       dayOfWeek ({ id := 3, date := 12, day_of_week := 5, is_weekend := true } : DimDateRow).date = sundayIdx)) ∧
    ({ id := 3, date := 12, day_of_week := 5, is_weekend := true } : DimDateRow).id
      = (({ id := 3, date := 12, day_of_week := 5, is_weekend := true } : DimDateRow).date : Int)
        - (((validDates [{ baseRow with release_date := some 10 },
            { baseRow with id := 101, release_date := some 12 }]).min?).getD d19000101 : Int) + 1 :=
  claim8_date_spine
    [{ baseRow with release_date := some 10 },
     { baseRow with id := 101, release_date := some 12 }]
    { id := 3, date := 12, day_of_week := 5, is_weekend := true }
    (by decide)

theorem buildDimGenre_map_id (movies : List MovieRow) :
    (buildDimGenre movies).map (·.id)
      = dedupKeys (flatKeys (·.genres) genreKey movies) := by
  unfold buildDimGenre dedupKeys dropDuplicatesBy
  exact scanRowsGo_map _ _ _ _ (fun _ _ => rfl) movies []

theorem buildDimDirector_map_id (credits : List CreditRow) :
    (buildDimDirector credits).map (·.id)
      = dedupKeys (flatKeys (·.crew) directorKey credits) := by
  unfold buildDimDirector dedupKeys dropDuplicatesBy
  exact scanRowsGo_map _ _ _ _ (fun _ _ => rfl) credits []

theorem buildDimCompany_map_id (movies : List MovieRow) :
    (buildDimProductionCompany movies).map (·.id)
      = dedupKeys (flatKeys (·.production_companies) companyKey movies) := by
  unfold buildDimProductionCompany dedupKeys dropDuplicatesBy
  exact scanRowsGo_map _ _ _ _ (fun _ _ => rfl) movies []

theorem buildDimCountry_map_iso (movies : List MovieRow) :
    (buildDimCountry movies).map (·.iso_3166_1)
      = dedupKeys (flatKeys (·.production_countries) countryKey movies) := by
  unfold buildDimCountry dedupKeys dropDuplicatesBy
  exact (map_mapIdx_proj _
      (fun i p => ({ id := (i : Int) + 1, iso_3166_1 := p.1,
                     country_name := p.2 } : DimCountryRow))
      (fun r => r.iso_3166_1) Prod.fst (fun _ _ => rfl)).trans
    (scanRowsGo_map (·.production_countries) countryKey
      (fun c iso => (iso, c.name.getD "")) Prod.fst (fun _ _ => rfl) movies [])

theorem buildDimCountry_map_id (movies : List MovieRow) :
    (buildDimCountry movies).map (·.id)
      = (List.range (scanRowsGo (·.production_countries) countryKey
          (fun c iso => (iso, c.name.getD "")) [] movies).length).map
          (fun i : Nat => (i : Int) + 1) := by
  unfold buildDimCountry
  exact map_mapIdx_range _ _ _ _ (fun _ _ => rfl)

theorem buildDimMovie_map_id (movies : List MovieRow) :
    (buildDimMovie movies).map (·.id)
      = (List.range movies.length).map (fun i : Nat => (i : Int) + 1) := by
  unfold buildDimMovie
  exact map_mapIdx_range _ _ _ _ (fun _ _ => rfl)

theorem buildDimLanguage_ok (movies : List MovieRow) (langs : List DimLanguageRow)
    (hl : buildDimLanguage movies = .ok langs) :
    ∃ pairs, langRowsGo [] movies = .ok pairs ∧
      langs.map (·.id)
        = (List.range pairs.length).map (fun i : Nat => (i : Int) + 1) ∧
      langs.map (·.iso_639_1) = pairs.map Prod.fst := by
  unfold buildDimLanguage at hl
  cases hgo : langRowsGo [] movies with
  | error e =>
    rw [hgo] at hl
    exact Except.noConfusion hl
  | ok pairs =>
    rw [hgo] at hl
    injection hl with hl
    subst hl
    refine ⟨pairs, rfl, ?_, ?_⟩
    · exact map_mapIdx_range _ _ _ _ (fun _ _ => rfl)
    · exact map_mapIdx_proj _ _ _ Prod.fst (fun _ _ => rfl)

/-- The cleaned table of the C1 counterexample: one movie with one
genre, the real TMDB genre "Action" whose natural id is 28. -/
def moviesC1 : List MovieRow :=
  [{ baseRow with genres := some [{ id := some 28, name := some "Action" }] }]

/-- A credit table with one director used in witnesses. -/
def creditsC1 : List CreditRow :=
  [{ movie_id := 100
     crew := some [{ id := some 7, name := some "D", job := some "Director",
                     profile_path := none }] }]

/-- Claim C1, counterexample: `build_dim_genre` keeps the NATURAL genre
id as DimGenre's key column — on a table whose only genre is Action
(id 28) the key column is [28], not the dense [1] the claim requires.
The same holds for DimDirector and DimProductionCompany. -/
theorem claim1_counterexample :
    ¬ denseIds ((buildDimGenre moviesC1).map (·.id)) := by
  decide

/-- Claim C1, amended: DimMovie, DimDate, DimLanguage and DimCountry
get a dense 1-based positional surrogate key; DimGenre, DimDirector
and DimProductionCompany instead keep the natural id as their key
column — one row per distinct natural key, in the order keys are first
seen scanning the cleaned rows top to bottom, with no key repeated. -/
theorem claim1_amended (movies : List MovieRow) (credits : List CreditRow)
    (langs : List DimLanguageRow) (hl : buildDimLanguage movies = .ok langs) :
    denseIds ((buildDimMovie movies).map (·.id)) ∧
    denseIds ((buildDimDate movies).map (·.id)) ∧
    denseIds (langs.map (·.id)) ∧
    denseIds ((buildDimCountry movies).map (·.id)) ∧
    (buildDimGenre movies).map (·.id)
        = dedupKeys (flatKeys (·.genres) genreKey movies) ∧
    (buildDimDirector credits).map (·.id)
        = dedupKeys (flatKeys (·.crew) directorKey credits) ∧
    (buildDimProductionCompany movies).map (·.id)
        = dedupKeys (flatKeys (·.production_companies) companyKey movies) ∧
    ((buildDimGenre movies).map (·.id)).Nodup ∧
    ((buildDimDirector credits).map (·.id)).Nodup ∧
    ((buildDimProductionCompany movies).map (·.id)).Nodup := by
  obtain ⟨pairs, _, hid, _⟩ := buildDimLanguage_ok movies langs hl
  refine ⟨?_, ?_, ?_, ?_, buildDimGenre_map_id movies, buildDimDirector_map_id credits,
    buildDimCompany_map_id movies, ?_, ?_, ?_⟩
  · rw [buildDimMovie_map_id]
    exact denseIds_range_map _
  · simp only [buildDimDate]
    rw [List.map_map]
    exact denseIds_range_map _
  · rw [hid]
    exact denseIds_range_map _
  · rw [buildDimCountry_map_id]
    exact denseIds_range_map _
  · rw [buildDimGenre_map_id]
    exact dropDupGo_id_nodup _ _
  · rw [buildDimDirector_map_id]
    exact dropDupGo_id_nodup _ _
  · rw [buildDimCompany_map_id]
    exact dropDupGo_id_nodup _ _

/-- Claim C1 amended, witness at the one-movie, one-credit tables. -/
theorem claim1_amended_witness :
    denseIds ((buildDimMovie moviesC1).map (·.id)) ∧
    denseIds ((buildDimDate moviesC1).map (·.id)) ∧
    denseIds (([] : List DimLanguageRow).map (·.id)) ∧
    denseIds ((buildDimCountry moviesC1).map (·.id)) ∧
    (buildDimGenre moviesC1).map (·.id)
        = dedupKeys (flatKeys (·.genres) genreKey moviesC1) ∧
    (buildDimDirector creditsC1).map (·.id)
        = dedupKeys (flatKeys (·.crew) directorKey creditsC1) ∧
    (buildDimProductionCompany moviesC1).map (·.id)
        = dedupKeys (flatKeys (·.production_companies) companyKey moviesC1) ∧
    ((buildDimGenre moviesC1).map (·.id)).Nodup ∧
    ((buildDimDirector creditsC1).map (·.id)).Nodup ∧
    ((buildDimProductionCompany moviesC1).map (·.id)).Nodup :=
  claim1_amended moviesC1 creditsC1 [] rfl

/-- Claim C10: an embedded entity whose natural key is falsy — a
genre, director or company entry with id 0 or missing, a language or
country entry with an empty or missing ISO code — never yields a
dimension row in any builder. -/
theorem claim10_falsy_keys_dropped (movies : List MovieRow)
    (credits : List CreditRow) (langs : List DimLanguageRow)
    (hl : buildDimLanguage movies = .ok langs) :
    (∀ g ∈ buildDimGenre movies, g.id ≠ 0) ∧
    (∀ d ∈ buildDimDirector credits, d.id ≠ 0) ∧
    (∀ c ∈ buildDimProductionCompany movies, c.id ≠ 0) ∧
    (∀ l ∈ langs, l.iso_639_1 ≠ "") ∧
    (∀ c ∈ buildDimCountry movies, c.iso_3166_1 ≠ "") := by
  obtain ⟨pairs, hpairs, _, hiso⟩ := buildDimLanguage_ok movies langs hl
  refine ⟨?_, ?_, ?_, ?_, ?_⟩
  · intro g hg
    have hmem := List.mem_map_of_mem (·.id) hg
    rw [buildDimGenre_map_id] at hmem
    have h2 := (dropDupGo_sound id _ _ _ hmem).1
    obtain ⟨_, _, x, _, hx⟩ := mem_flatKeys _ _ _ _ h2
    exact genreKey_ne_zero x _ hx
  · intro d hd
    have hmem := List.mem_map_of_mem (·.id) hd
    rw [buildDimDirector_map_id] at hmem
    have h2 := (dropDupGo_sound id _ _ _ hmem).1
    obtain ⟨_, _, x, _, hx⟩ := mem_flatKeys _ _ _ _ h2
    exact directorKey_ne_zero x _ hx
  · intro c hc
    have hmem := List.mem_map_of_mem (·.id) hc
    rw [buildDimCompany_map_id] at hmem
    have h2 := (dropDupGo_sound id _ _ _ hmem).1
    obtain ⟨_, _, x, _, hx⟩ := mem_flatKeys _ _ _ _ h2
    exact companyKey_ne_zero x _ hx
  · intro l hlm
    have hmem := List.mem_map_of_mem (·.iso_639_1) hlm
    rw [hiso, langRowsGo_ok movies [] pairs hpairs] at hmem
    have h2 := (dropDupGo_sound id _ _ _ hmem).1
    obtain ⟨_, _, x, _, hx⟩ := mem_flatKeys _ _ _ _ h2
    exact langKey_ne_empty x _ hx
  · intro c hc
    have hmem := List.mem_map_of_mem (·.iso_3166_1) hc
    rw [buildDimCountry_map_iso] at hmem
    have h2 := (dropDupGo_sound id _ _ _ hmem).1
    obtain ⟨_, _, x, _, hx⟩ := mem_flatKeys _ _ _ _ h2
    exact countryKey_ne_empty x _ hx

/-- A table exercising every falsy-key shape: genre id 0 and missing,
company id 0, language ISO "" and missing, country ISO "". -/
def moviesC10 : List MovieRow :=
  [{ baseRow with
     genres := some [{ id := some 0, name := some "zero" },
                     { id := none, name := some "missing" },
                     { id := some 28, name := some "Action" }]
     production_companies := some [{ id := some 0, name := some "zero",
                                     origin_country := none }]
     production_countries := some [{ iso_3166_1 := some "", name := some "empty" },
                                   { iso_3166_1 := some "US",
                                     name := some "United States of America" }]
     spoken_languages := some [{ iso_639_1 := some "", name := some "empty" },
                               { iso_639_1 := none, name := some "missing" },
                               { iso_639_1 := some "en", name := some "English" }] }]

/-- A credit table with a zero-id director entry. -/
def creditsC10 : List CreditRow :=
  [{ movie_id := 100
     crew := some [{ id := some 0, name := some "zero", job := some "Director",
                     profile_path := none },
                   { id := some 7, name := some "D", job := some "Director",
                     profile_path := none }] }]

/-- Claim C10, witness: on `moviesC10`/`creditsC10` (whose embedded
lists contain every falsy-key shape) the surviving dimension rows all
carry truthy keys, per `claim10_falsy_keys_dropped`. -/
theorem claim10_witness :
    (∀ g ∈ buildDimGenre moviesC10, g.id ≠ 0) ∧
    (∀ d ∈ buildDimDirector creditsC10, d.id ≠ 0) ∧
    (∀ c ∈ buildDimProductionCompany moviesC10, c.id ≠ 0) ∧
    (∀ l ∈ [({ id := 1, iso_639_1 := "en", language_name := "English" } : DimLanguageRow)],
        l.iso_639_1 ≠ "") ∧
    (∀ c ∈ buildDimCountry moviesC10, c.iso_3166_1 ≠ "") :=
  claim10_falsy_keys_dropped moviesC10 creditsC10
    [{ id := 1, iso_639_1 := "en", language_name := "English" }] rfl

/-- Claim C7: the Cleaner drops a row only for being a duplicate
natural id — the cleaned key column is exactly the first-occurrence
deduplication of the raw key column, so validity of dates or numerics
never affects which rows survive; each surviving row is the coercion
of the EARLIEST raw row with its id (`find?` returns the first match),
with invalid numerics replaced by the type-appropriate zero, the
free-text columns `overview`/`tagline` defaulted to the empty string,
and an invalid release date kept as NaT rather than dropping the
row. -/
theorem claim7_cleaner (df : List RawMovieRow) (r : MovieRow)
    (hr : r ∈ cleanMovies df) :
    ((cleanMovies df).map (·.id)).Nodup ∧
    (cleanMovies df).map (·.id) = dedupKeys (df.map (·.id)) ∧
    ∃ raw ∈ df, df.find? (fun y => y.id == r.id) = some raw ∧
      r = coerceMovieRow raw ∧
      r.popularity = raw.popularity.getD 0 ∧
      r.vote_average = raw.vote_average.getD 0 ∧
      r.vote_count = raw.vote_count.getD 0 ∧
      r.budget = raw.budget.getD 0 ∧
      r.revenue = raw.revenue.getD 0 ∧
      r.runtime = raw.runtime.getD 0 ∧
      r.overview = raw.overview.getD "" ∧
      r.tagline = raw.tagline.getD "" ∧
      r.release_date = raw.release_date := by
  have h1 : (cleanMovies df).map (·.id) = dedupKeys (df.map (·.id)) := by
    unfold cleanMovies dedupKeys dropDuplicatesBy
    rw [List.map_map]
    exact dropDupGo_map_key (·.id) df []
  refine ⟨?_, h1, ?_⟩
  · rw [h1]
    unfold dedupKeys dropDuplicatesBy
    exact dropDupGo_id_nodup _ _
  · have hr' : r ∈ (dropDuplicatesBy (fun y : RawMovieRow => y.id) df).map
        coerceMovieRow := hr
    obtain ⟨x, hx, hcoerce⟩ := List.mem_map.mp hr'
    obtain ⟨hxdf, _, hfind⟩ := dropDupGo_sound (fun y : RawMovieRow => y.id) df [] x hx
    subst hcoerce
    exact ⟨x, hxdf, hfind, rfl, rfl, rfl, rfl, rfl, rfl, rfl, rfl, rfl, rfl⟩

/-- A raw row with a duplicate id, an unparseable date and every
numeric/text field missing or invalid. -/
def rawC7a : RawMovieRow :=
  { id := 5
    title := "A"
    status := "Released"
    release_date := none
    popularity := none
    vote_average := none
    vote_count := none
    budget := none
    revenue := none
    runtime := none
    overview := none
    tagline := none
    original_language := none
    genres := none
    production_companies := some []
    production_countries := some []
    spoken_languages := some [] }

/-- The raw table of the C7 witness: a duplicate of id 5 plus a second
distinct movie. -/
def rawsC7 : List RawMovieRow :=
  [rawC7a, { rawC7a with title := "B" },
   { rawC7a with id := 6, title := "C", popularity := some 3 }]

/-- Claim C7, witness: on `rawsC7` the duplicate is dropped (ids [5, 6]),
the survivor of id 5 is the earliest occurrence, and its invalid
fields are zero/empty defaults. -/
theorem claim7_witness :
    ((cleanMovies rawsC7).map (·.id)).Nodup ∧
    (cleanMovies rawsC7).map (·.id) = dedupKeys (rawsC7.map (·.id)) ∧
    ∃ raw ∈ rawsC7,
      rawsC7.find? (fun y => y.id == (coerceMovieRow rawC7a).id) = some raw ∧
      coerceMovieRow rawC7a = coerceMovieRow raw ∧
      (coerceMovieRow rawC7a).popularity = raw.popularity.getD 0 ∧
      (coerceMovieRow rawC7a).vote_average = raw.vote_average.getD 0 ∧
      (coerceMovieRow rawC7a).vote_count = raw.vote_count.getD 0 ∧
      (coerceMovieRow rawC7a).budget = raw.budget.getD 0 ∧
      (coerceMovieRow rawC7a).revenue = raw.revenue.getD 0 ∧
      (coerceMovieRow rawC7a).runtime = raw.runtime.getD 0 ∧
      (coerceMovieRow rawC7a).overview = raw.overview.getD "" ∧
      (coerceMovieRow rawC7a).tagline = raw.tagline.getD "" ∧
      (coerceMovieRow rawC7a).release_date = raw.release_date :=
  claim7_cleaner rawsC7 (coerceMovieRow rawC7a) (by decide)

theorem buildDimMovie_map_original_id (movies : List MovieRow) :
    (buildDimMovie movies).map (·.original_id) = movies.map (·.id) := by
  unfold buildDimMovie
  exact map_mapIdx_proj movies
    (fun i r => ({ id := (i : Int) + 1
                   original_id := r.id
                   title := r.title
                   original_language := r.original_language
                   overview := r.overview
                   runtime := r.runtime
                   tagline := r.tagline
                   status := r.status } : DimMovieRow))
    (fun m => m.original_id) (fun r => r.id) (fun _ _ => rfl)

/-- Claim C3: in the composed pipeline (DimMovie and DimGenre built
from the same cleaned table the bridge scans), every bridge row's
`(movie_id, genre_id)` references an existing DimMovie key and an
existing DimGenre key, and the bridge holds exactly one row per
embedded genre entry whose natural id resolves in DimGenre — the
movie side always resolves, unresolved genre ids are dropped, and a
row whose genre list fails to parse contributes zero bridge rows. -/
theorem claim3_bridge_integrity (movies : List MovieRow) (p : Int × BridgeRow)
    (hp : p ∈ buildBridgeMovieGenre movies (buildDimMovie movies) (buildDimGenre movies)) :
    (∃ m ∈ buildDimMovie movies, p.2.movie_id = some m.id) ∧
    (∃ g ∈ buildDimGenre movies, p.2.genre_id = g.id) ∧
    (buildBridgeMovieGenre movies (buildDimMovie movies) (buildDimGenre movies)).length
      = (movies.map (genreHits ((buildDimGenre movies).map (·.id)))).sum := by
  have hsnd := mem_snd_insertIds _ p hp
  obtain ⟨lrow, hlrow, hmem⟩ := List.mem_flatten.mp hsnd
  obtain ⟨row, hrowmem, hfrow⟩ := List.mem_map.mp hlrow
  rw [← hfrow] at hmem
  obtain ⟨hmid, hgid⟩ := mem_bridgeRowsOf _ _ row p.2 hmem
  refine ⟨?_, ?_, ?_⟩
  · have hin : row.id ∈ (buildDimMovie movies).map (·.original_id) := by
      rw [buildDimMovie_map_original_id]
      exact List.mem_map_of_mem (·.id) hrowmem
    obtain ⟨m0, hm0, hm0eq⟩ := List.mem_map.mp hin
    have hsome : (dictGet (movieKeyDict (buildDimMovie movies)) row.id).isSome := by
      rw [← hm0eq]
      exact dictGet_buildLookup_isSome (·.original_id) (fun r => some r.id)
        (buildDimMovie movies) m0 hm0 rfl
    obtain ⟨v, hv⟩ := Option.isSome_iff_exists.mp hsome
    have hv' : dictGet (buildLookupGo (fun m : DimMovieRow => m.original_id)
        (fun r => some r.id) [] (buildDimMovie movies)) row.id = some v := hv
    have := dictGet_buildLookupGo_some (fun m : DimMovieRow => m.original_id)
      (fun r => some r.id) (buildDimMovie movies) [] row.id v hv'
    rcases this with ⟨m', hm', _, hval⟩ | habs
    · injection hval with hval
      exact ⟨m', hm', by rw [hmid, hv, hval]⟩
    · exact Option.noConfusion habs
  · obtain ⟨g, hg, hgeq⟩ := List.mem_map.mp hgid
    exact ⟨g, hg, hgeq.symm⟩
  · unfold buildBridgeMovieGenre
    rw [length_insertIds, List.length_flatten, List.map_map]
    congr 1
    exact List.map_congr_left (fun row _ => bridgeRowsOf_length _ _ row)

/-- Claim C3, witness at the one-movie, one-genre table: the single
bridge row is (movie 1, genre 28) and both keys exist. -/
theorem claim3_witness :
    (∃ m ∈ buildDimMovie moviesC1,
        ((1 : Int), ({ movie_id := some 1, genre_id := 28 } : BridgeRow)).2.movie_id
          = some m.id) ∧
    (∃ g ∈ buildDimGenre moviesC1,
        ((1 : Int), ({ movie_id := some 1, genre_id := 28 } : BridgeRow)).2.genre_id
          = g.id) ∧
    (buildBridgeMovieGenre moviesC1 (buildDimMovie moviesC1) (buildDimGenre moviesC1)).length
      = (moviesC1.map (genreHits ((buildDimGenre moviesC1).map (·.id)))).sum :=
  claim3_bridge_integrity moviesC1
    ((1 : Int), { movie_id := some 1, genre_id := 28 }) (by decide)

/-- A movie whose spoken-languages list opens with an empty ISO code
(excluded from DimLanguage) followed by "en" (present in DimLanguage). -/
def rowC9 : MovieRow :=
  { baseRow with
    spoken_languages := some [{ iso_639_1 := some "", name := some "No Language" },
                              { iso_639_1 := some "en", name := some "English" }] }

/-- The single-movie table of the C9 counterexample. -/
def moviesC9 : List MovieRow := [rowC9]

/-- The language dimension the pipeline builds from `moviesC9`. -/
def dimLangC9 : List DimLanguageRow :=
  [{ id := 1, iso_639_1 := "en", language_name := "English" }]

/-- Claim C9, counterexample: the fact builder consults ONLY
`languages[0]`. On `moviesC9` the list's first entry whose ISO code
resolves in DimLanguage is the second entry, "en", with surrogate key
1 — but the emitted fact row's `language_id` is null because the head
entry's empty code does not resolve. -/
theorem claim9_counterexample :
    buildDimLanguage moviesC9 = .ok dimLangC9 ∧
    ((rowC9.spoken_languages.getD []).filterMap
        (fun l => (dimLangC9.find?
          (fun d => some d.iso_639_1 == l.iso_639_1)).map (·.id))) = [1] ∧
    (buildFactMovieRelease moviesC9 [] (buildDimMovie moviesC9) (buildDimDate moviesC9)
        [] dimLangC9 [] []).map (fun p => p.2.language_id) = [none] := by
  refine ⟨rfl, rfl, rfl⟩

/-- Claim C9, amended: on a cleaned table (distinct natural ids), the
i-th fact row's `language_id` is the surrogate key of the FIRST entry
of the movie's spoken-languages list if that entry's ISO code resolves
in DimLanguage and null otherwise — later entries are never consulted
— and likewise `country_id` from the first production-countries
entry; each field is resolved independently of the other. -/
theorem claim9_amended (movies : List MovieRow) (credits : List CreditRow)
    (dM : List DimMovieRow) (dD : List DimDateRow) (dDir : List DimDirectorRow)
    (dL : List DimLanguageRow) (dC : List DimCompanyRow) (dCt : List DimCountryRow)
    (i : Nat) (hnd : (movies.map (·.id)).Nodup) (hi : i < movies.length)
    (hf : i < (buildFactMovieRelease movies credits dM dD dDir dL dC dCt).length) :
    ((buildFactMovieRelease movies credits dM dD dDir dL dC dCt).get ⟨i, hf⟩).2.language_id
        = resolveLanguage dL (movies.get ⟨i, hi⟩) ∧
    ((buildFactMovieRelease movies credits dM dD dDir dL dC dCt).get ⟨i, hf⟩).2.country_id
        = resolveCountry dCt (movies.get ⟨i, hi⟩) := by
  rw [buildFact_get movies credits dM dD dDir dL dC dCt i hi hf]
  constructor
  · exact dictGet_buildLookup (fun r : MovieRow => r.id) (resolveLanguage dL)
      movies (movies.get ⟨i, hi⟩) (movies.get_mem _ _) hnd
  · exact dictGet_buildLookup (fun r : MovieRow => r.id) (resolveCountry dCt)
      movies (movies.get ⟨i, hi⟩) (movies.get_mem _ _) hnd

/-- Claim C9 amended, witness at `moviesC9` with the pipeline's own
DimLanguage: the fact row's `language_id` equals the head-entry
resolution (which is null here). -/
theorem claim9_amended_witness :
    ((buildFactMovieRelease moviesC9 [] [] [] [] dimLangC9 [] []).get
        ⟨0, by decide⟩).2.language_id
      = resolveLanguage dimLangC9 (moviesC9.get ⟨0, by decide⟩) ∧
    ((buildFactMovieRelease moviesC9 [] [] [] [] dimLangC9 [] []).get
        ⟨0, by decide⟩).2.country_id
      = resolveCountry [] (moviesC9.get ⟨0, by decide⟩) :=
  claim9_amended moviesC9 [] [] [] [] dimLangC9 [] [] 0 (by decide) (by decide) (by decide)

end TMDB
